import Mathlib

/-!
# Verification of the GitHub frontend service client

Shallow embedding of the fetch-based `GitHubService` client (services/github)
and of the repository-list loader of the `GitHubOperations` component.

Modelling conventions:
* JSON values are the inductive `Json` below.  Request bodies are compared at
  the JSON-value level (the source calls `JSON.stringify` on an object literal
  whose field order is fixed by the literal, so the value determines the wire
  string).
* An HTTP round trip is a `FetchResult`: either the fetch promise rejects
  (`netError`, carrying the rejection's message), or it resolves with a status
  code and a body that `response.json()` either parses (`json`) or rejects on
  (`malformed`, carrying the parse error's message).
* Each service method performs exactly one `fetch`; it is embedded as a
  `Call α`: the single request it issues plus the pure continuation applied to
  the outcome of that request.  Running a call against a backend
  `World : HttpRequest → FetchResult` yields its result.
* A thrown/rethrown JavaScript `Error` is `Except.error msg` where `msg` is the
  error's `.message`; a normal return is `Except.ok`.
-/

/-- JSON values (the shape produced by `response.json()` and consumed by
`JSON.stringify`). -/
inductive Json where
  | null : Json
  | bool : Bool → Json
  | num : Int → Json
  | str : String → Json
  | arr : List Json → Json
  | obj : List (String × Json) → Json

/-- Field lookup in a parsed JSON object: `fs` lists the object's fields. -/
def lookupField : List (String × Json) → String → Option Json
  | [], _ => none
  | (k, v) :: rest, key => if k = key then some v else lookupField rest key

/-- JavaScript truthiness of a JSON value (used by `data.detail || fallback`
and `description || default`); `NaN` cannot occur in parsed JSON. -/
def Json.truthy : Json → Bool
  | .null => false
  | .bool b => b
  | .num n => if n = 0 then false else true
  | .str s => if s = "" then false else true
  | .arr _ => true
  | .obj _ => true

mutual

/-- JavaScript `String(v)` on a JSON value, as applied by the `Error`
constructor to a non-string argument.  (On arrays JS `join` renders a `null`
element as the empty string; here it renders as `"null"` — the difference is
unreachable in every property proved below, where thrown details are
strings.) -/
def Json.jsString : Json → String
  | .null => "null"
  | .bool b => cond b "true" "false"
  | .num n => toString n
  | .str s => s
  | .arr xs => jsStringList xs
  | .obj _ => "[object Object]"

/-- Comma-join of stringified array elements (JS array `toString`). -/
def jsStringList : List Json → String
  | [] => ""
  | [j] => Json.jsString j
  | j :: rest => Json.jsString j ++ "," ++ jsStringList rest

end

/-- Property read `j.f` on the value `j`: `undefined` (absent) is `Option.none`;
reading a property of JSON `null` throws a `TypeError`. -/
def jsMember : Json → String → Except String (Option Json)
  | .null, f => .error ("Cannot read properties of null (reading '" ++ f ++ "')")
  | .obj fs, f => .ok (lookupField fs f)
  | _, _ => .ok none

/-- Truthiness of a possibly-`undefined` property value. -/
def truthyO : Option Json → Bool
  | none => false
  | some j => j.truthy

-- ## HTTP layer

/-- One request as handed to `fetch`: URL, method, optional JSON body. -/
structure HttpRequest where
  url : String
  method : String
  body : Option Json

/-- What `response.json()` yields: a parsed value, or a rejection with the
parse error's message. -/
inductive BodyRead where
  | json : Json → BodyRead
  | malformed : String → BodyRead

/-- Outcome of one `fetch`: the promise rejects (network error) or resolves
with a status code and a body. -/
inductive FetchResult where
  | netError : String → FetchResult
  | resp : Nat → BodyRead → FetchResult

/-- The backend, as observed by the client: its response to each request. -/
def World : Type := HttpRequest → FetchResult

/-- A service method that performs exactly one `fetch`: the request it issues
and the pure continuation on that request's outcome.  Every method of
`GitHubService` has this shape. -/
structure Call (α : Type) where
  req : HttpRequest
  k : FetchResult → α

/-- Run a call against a backend. -/
def Call.run {α : Type} (c : Call α) (w : World) : α := c.k (w c.req)

-- ## Request/response record shapes (the exported interfaces)

/-- `GitHubConfig` (credentials). -/
structure GitHubConfig where
  token : String
  username : String

/-- `GitHubRepository` (repository creation spec); `Option` models the
`?`-optional fields, omitted from the serialized body when absent. -/
structure GitHubRepository where
  name : String
  description : String
  «private» : Bool
  auto_init : Option Bool
  gitignore_template : Option String

/-- `GitHubExtractRequest`. -/
structure GitHubExtractRequest where
  source_dir : String
  repo_name : String
  description : String
  «private» : Bool
  include_patterns : Option (List String)
  exclude_patterns : Option (List String)

/-- `GitHubUpdateRequest`. -/
structure GitHubUpdateRequest where
  repo_name : String
  source_dir : String
  include_patterns : Option (List String)
  exclude_patterns : Option (List String)

/-- Serialization of a string list. -/
def strArr (xs : List String) : Json := .arr (xs.map Json.str)

/-- `JSON.stringify(config)` at the value level. -/
def configJson (config : GitHubConfig) : Json :=
  .obj [("token", .str config.token), ("username", .str config.username)]

/-- `JSON.stringify(repo)` at the value level (`undefined` optionals are
omitted). -/
def repoJson (repo : GitHubRepository) : Json :=
  .obj ([("name", .str repo.name), ("description", .str repo.description),
         ("private", .bool repo.«private»)]
    ++ (match repo.auto_init with
        | some b => [("auto_init", Json.bool b)]
        | none => [])
    ++ (match repo.gitignore_template with
        | some s => [("gitignore_template", Json.str s)]
        | none => []))

/-- `JSON.stringify(request)` for an extract request. -/
def extractJson (r : GitHubExtractRequest) : Json :=
  .obj ([("source_dir", .str r.source_dir), ("repo_name", .str r.repo_name),
         ("description", .str r.description), ("private", .bool r.«private»)]
    ++ (match r.include_patterns with
        | some ps => [("include_patterns", strArr ps)]
        | none => [])
    ++ (match r.exclude_patterns with
        | some ps => [("exclude_patterns", strArr ps)]
        | none => []))

/-- `JSON.stringify(request)` for an update request. -/
def updateJson (r : GitHubUpdateRequest) : Json :=
  .obj ([("repo_name", .str r.repo_name), ("source_dir", .str r.source_dir)]
    ++ (match r.include_patterns with
        | some ps => [("include_patterns", strArr ps)]
        | none => [])
    ++ (match r.exclude_patterns with
        | some ps => [("exclude_patterns", strArr ps)]
        | none => []))

-- ## The GitHubService client

/-- The fixed base URL set in the constructor. -/
def baseUrl : String := "http://localhost:8000/github"

/-- `Response.ok`: status in the inclusive range 200–299. -/
def responseOk (status : Nat) : Bool := 200 ≤ status && status ≤ 299

/-- `data.detail || fallback`, as the message of the thrown error in the
`!response.ok` branch: the `detail` field's value when present and truthy
(stringified by the `Error` constructor), else the fallback; reading `.detail`
off a JSON `null` body throws a `TypeError` whose message is surfaced
instead. -/
def detailMessage (data : Json) (fallback : String) : String :=
  match data with
  | .null => "Cannot read properties of null (reading 'detail')"
  | .obj fs =>
    match lookupField fs "detail" with
    | some v => if v.truthy then v.jsString else fallback
    | none => fallback
  | _ => fallback

/-- The shared try-block skeleton of every method that parses the body:
`const data = await response.json(); if (!response.ok) throw new
Error(data.detail || fallback); return data;` with the catch rethrowing.
Note the source parses the body *before* checking `response.ok`, so a
malformed body on a non-2xx response surfaces the parse error. -/
def handleJson (fallback : String) : FetchResult → Except String Json
  | .netError msg => .error msg
  | .resp status b =>
    match b with
    | .malformed msg => .error msg
    | .json data =>
      if responseOk status then .ok data
      else .error (detailMessage data fallback)

/-- `configure(config)`: POST `/configure` with the serialized credentials. -/
def configure (config : GitHubConfig) : Call (Except String Json) :=
  { req := { url := baseUrl ++ "/configure", method := "POST",
             body := some (configJson config) },
    k := handleJson "Failed to configure GitHub" }

/-- The GET `/status` request issued by `getStatus`. -/
def statusRequest : HttpRequest :=
  { url := baseUrl ++ "/status", method := "GET", body := none }

/-- The `{ configured: false, error: msg }` value built by `getStatus`'s
catch clause (every caught error here is an `Error` instance, so its
`.message` is used). -/
def statusFailure (msg : String) : Json :=
  .obj [("configured", .bool false), ("error", .str msg)]

/-- `getStatus()`: same try-block as the other methods, but the catch returns
`{ configured: false, error }` instead of rethrowing. -/
def getStatus : Call Json :=
  { req := statusRequest,
    k := fun r =>
      match handleJson "Failed to get GitHub status" r with
      | .ok data => data
      | .error msg => statusFailure msg }

/-- `createRepository(repo)`: POST `/repositories`. -/
def createRepository (repo : GitHubRepository) : Call (Except String Json) :=
  { req := { url := baseUrl ++ "/repositories", method := "POST",
             body := some (repoJson repo) },
    k := handleJson "Failed to create repository" }

/-- `listRepositories()`: GET `/repositories`. -/
def listRepositories : Call (Except String Json) :=
  { req := { url := baseUrl ++ "/repositories", method := "GET", body := none },
    k := handleJson "Failed to list repositories" }

/-- `getRepository(repoName)`: GET `/repositories/${repoName}` (the name is
template-interpolated into the URL with no escaping). -/
def getRepository (repoName : String) : Call (Except String Json) :=
  { req := { url := baseUrl ++ "/repositories/" ++ repoName, method := "GET",
             body := none },
    k := handleJson "Failed to get repository" }

/-- `extractAndPush(request)`: POST `/extract-and-push`. -/
def extractAndPush (request : GitHubExtractRequest) : Call (Except String Json) :=
  { req := { url := baseUrl ++ "/extract-and-push", method := "POST",
             body := some (extractJson request) },
    k := handleJson "Failed to extract and push" }

/-- `updateRepository(request)`: POST `/update-repository`. -/
def updateRepository (request : GitHubUpdateRequest) : Call (Except String Json) :=
  { req := { url := baseUrl ++ "/update-repository", method := "POST",
             body := some (updateJson request) },
    k := handleJson "Failed to update repository" }

/-- `deleteRepository(repoName)`: DELETE `/repositories/${repoName}` (no
escaping, no confirmation step — the request is built and issued
unconditionally). -/
def deleteRepository (repoName : String) : Call (Except String Json) :=
  { req := { url := baseUrl ++ "/repositories/" ++ repoName, method := "DELETE",
             body := none },
    k := handleJson "Failed to delete repository" }

/-- The generated default description `` `AI-generated code from Cube AI
System - ${new Date().toISOString()}` ``; `now` is the ISO timestamp of the
call instant. -/
def defaultDescription (now : String) : String :=
  "AI-generated code from Cube AI System - " ++ now

/-- The JS default value of `quickExtract`'s `description` parameter
(`description: string = ''`): passing no description, or `undefined`, is the
same as passing this value. -/
def quickExtractOmittedDescription : String := ""

/-- The `GitHubExtractRequest` object literal built by `quickExtract`.
`description || default` keeps a truthy (non-empty) description and replaces
an empty one with the generated default. -/
def quickExtractRequest (repoName description : String) («private» : Bool)
    (now : String) : GitHubExtractRequest :=
  { source_dir := "./generated",
    repo_name := repoName,
    description := if description = "" then defaultDescription now else description,
    «private» := «private»,
    include_patterns := some ["*.py", "*.js", "*.ts", "*.tsx", "*.jsx",
                              "*.html", "*.css", "*.json", "*.md", "*.txt"],
    exclude_patterns := some ["__pycache__", "*.log", "*.tmp", ".DS_Store",
                              "node_modules", ".git"] }

/-- `quickExtract(repoName, description = '', private = false)`: builds the
default-filled request and delegates to `extractAndPush`. -/
def quickExtract (repoName description : String) («private» : Bool)
    (now : String) : Call (Except String Json) :=
  extractAndPush (quickExtractRequest repoName description «private» now)

/-- `validateToken(token)`: its own POST to `/configure` with body
`{ token, username: 'test' }`; it returns `response.ok` without ever calling
`response.json()`, and its catch returns `false`.  The result is typed
`Except` so that "never raises" is a provable statement rather than a typing
artifact: the continuation only ever produces `Except.ok`. -/
def validateToken (token : String) : Call (Except String Bool) :=
  { req := { url := baseUrl ++ "/configure", method := "POST",
             body := some (.obj [("token", .str token),
                                 ("username", .str "test")]) },
    k := fun r =>
      match r with
      | .netError _ => .ok false
      | .resp status _ => .ok (responseOk status) }

-- ## GitHubOperations.loadRepositories (the repository-list loader)

/-- The component state touched by `loadRepositories`: the `repositories`
state variable (initialised to `[]`, so typed as the JSON value it is set to)
and the `error` message state.  The `loading` flag is pure presentation and
elided. -/
structure OpsState where
  repositories : Json
  error : Option String

/-- Initial component state: `useState<any[]>([])`, `useState<string |
null>(null)`. -/
def initialOpsState : OpsState := { repositories := .arr [], error := none }

/-- `loadRepositories`: awaits `listRepositories()`; on
`result.success && result.repositories` (JS truthiness, with property reads
that throw on a `null` result) stores `result.repositories`; any thrown error
— from the service call or from the property reads — is caught and surfaces
as `setError('Failed to load repositories')`. -/
def loadRepositories (w : World) (s : OpsState) : OpsState :=
  match listRepositories.run w with
  | .error _ => { s with error := some "Failed to load repositories" }
  | .ok result =>
    match jsMember result "success" with
    | .error _ => { s with error := some "Failed to load repositories" }
    | .ok suc =>
      if truthyO suc then
        match jsMember result "repositories" with
        | .error _ => { s with error := some "Failed to load repositories" }
        | .ok reps =>
          match reps with
          | some j => if j.truthy then { s with repositories := j } else s
          | none => s
      else s

-- ## Concrete backends used by witnesses and counterexamples

/-- A backend whose fetch promise always rejects with a network error. -/
def worldNet : World := fun _ => .netError "NetworkError when attempting to fetch resource"

/-- A backend answering 200 with a body `response.json()` rejects on. -/
def worldMalformed200 : World := fun _ => .resp 200 (.malformed "Unexpected end of JSON input")

/-- A backend answering 400 with `{"detail": "GitHub not configured"}`. -/
def worldStatus400 : World := fun _ => .resp 400 (.json (.obj [("detail", .str "GitHub not configured")]))

/-- A backend answering 200 with `{"configured": true, "username": "u1"}`. -/
def worldStatus200 : World := fun _ => .resp 200 (.json (.obj [("configured", .bool true), ("username", .str "u1")]))

/-- A backend answering 200 with `{"success": true}` (no `repositories`
field). -/
def worldOk200 : World := fun _ => .resp 200 (.json (.obj [("success", .bool true)]))

/-- A backend answering 400 with `{"detail": "Invalid token"}`. -/
def world400Detail : World := fun _ => .resp 400 (.json (.obj [("detail", .str "Invalid token")]))

-- ## Helper lemmas

/-- A status of the 4xx/5xx range fails the `Response.ok` test. -/
theorem responseOk_false_of_ge_400 {s : Nat} (h : 400 ≤ s) : responseOk s = false := by
  have h2 : ¬ s ≤ 299 := by omega
  simp [responseOk, h2]

/-- The generated default description is never the empty string. -/
theorem defaultDescription_ne_empty (now : String) : defaultDescription now ≠ "" := by
  intro h
  have h2 := congrArg String.length h
  simp only [defaultDescription, String.length_append] at h2
  have h3 : String.length "AI-generated code from Cube AI System - " = 40 := by decide
  have h4 : String.length "" = 0 := by decide
  omega

/-- The uniform raising policy of the spec (§4.1/§7), for one call: a network
error raises the underlying message; a malformed body raises the parse error's
message; a ≥ 400 response with a truthy string `detail` field raises that
field's value; a ≥ 400 response without a `detail` field raises the
call-specific fallback. -/
def raisesPolicy (c : Call (Except String Json)) (fallback : String) : Prop :=
  ∀ w : World,
    (∀ m, w c.req = .netError m → c.run w = .error m) ∧
    (∀ status m, w c.req = .resp status (.malformed m) → c.run w = .error m) ∧
    (∀ status fs d, w c.req = .resp status (.json (.obj fs)) → 400 ≤ status →
      lookupField fs "detail" = some (.str d) → d ≠ "" → c.run w = .error d) ∧
    (∀ status fs, w c.req = .resp status (.json (.obj fs)) → 400 ≤ status →
      lookupField fs "detail" = none → c.run w = .error fallback)

/-- Every call whose continuation is `handleJson fb` satisfies the raising
policy with fallback `fb`. -/
theorem handleJson_policy (req : HttpRequest) (fb : String) :
    raisesPolicy ⟨req, handleJson fb⟩ fb := by
  intro w
  refine ⟨?_, ?_, ?_, ?_⟩
  · intro m hm
    simp [Call.run, hm, handleJson]
  · intro status m hm
    simp [Call.run, hm, handleJson]
  · intro status fs d hm h400 hd hne
    simp [Call.run, hm, handleJson, responseOk_false_of_ge_400 h400,
          detailMessage, hd, Json.truthy, hne, Json.jsString]
  · intro status fs hm h400 hd
    simp [Call.run, hm, handleJson, responseOk_false_of_ge_400 h400,
          detailMessage, hd]

-- ## Claims

/-- C1: `getStatus` never raises: a network error, a malformed body, and a
non-2xx response each produce the normal value
`{configured: false, error: <message>}` carrying the failure's message (for a
non-2xx JSON body this is `data.detail || fallback`, per `detailMessage`);
only a 2xx response with a well-formed JSON body returns that parsed body. -/
theorem C1_getStatus_never_raises (w : World) :
    (∀ m, w statusRequest = .netError m → getStatus.run w = statusFailure m) ∧
    (∀ status m, w statusRequest = .resp status (.malformed m) →
      getStatus.run w = statusFailure m) ∧
    (∀ status data, w statusRequest = .resp status (.json data) →
      responseOk status = false →
      getStatus.run w = statusFailure (detailMessage data "Failed to get GitHub status")) ∧
    (∀ status data, w statusRequest = .resp status (.json data) →
      responseOk status = true → getStatus.run w = data) := by
  refine ⟨?_, ?_, ?_, ?_⟩
  · intro m hm
    simp [Call.run, getStatus, hm, handleJson]
  · intro status m hm
    simp [Call.run, getStatus, hm, handleJson]
  · intro status data hm hko
    simp [Call.run, getStatus, hm, handleJson, hko]
  · intro status data hm hok
    simp [Call.run, getStatus, hm, handleJson, hok]

/-- Witness for C1 at four concrete backends, one per failure shape plus the
2xx success shape. -/
theorem C1_getStatus_never_raises_witness :
    getStatus.run worldNet = statusFailure "NetworkError when attempting to fetch resource" ∧
    getStatus.run worldMalformed200 = statusFailure "Unexpected end of JSON input" ∧
    getStatus.run worldStatus400 = statusFailure "GitHub not configured" ∧
    getStatus.run worldStatus200 = .obj [("configured", .bool true), ("username", .str "u1")] := by
  refine ⟨(C1_getStatus_never_raises worldNet).1 _ rfl, ?_, ?_,
          (C1_getStatus_never_raises worldStatus200).2.2.2 200 _ rfl rfl⟩
  · exact (C1_getStatus_never_raises worldMalformed200).2.1 200 _ rfl
  · have h := (C1_getStatus_never_raises worldStatus400).2.2.1 400 _ rfl rfl
    rw [h]
    rfl

/-- C2 (amended): the uniform raising policy holds for every client call
except `getStatus` *and `validateToken`*: `configure`, `createRepository`,
`listRepositories`, `getRepository`, `extractAndPush`, `updateRepository`,
`deleteRepository` and `quickExtract` each raise the `detail` field's value on
a ≥ 400 response carrying one (the call-specific fallback when it is absent)
and raise the underlying message on a transport failure, while `validateToken`
— like `getStatus` — never raises: it resolves to a boolean for every backend
outcome. -/
theorem C2_error_policy_amended :
    (∀ config, raisesPolicy (configure config) "Failed to configure GitHub") ∧
    (∀ repo, raisesPolicy (createRepository repo) "Failed to create repository") ∧
    raisesPolicy listRepositories "Failed to list repositories" ∧
    (∀ name, raisesPolicy (getRepository name) "Failed to get repository") ∧
    (∀ r, raisesPolicy (extractAndPush r) "Failed to extract and push") ∧
    (∀ r, raisesPolicy (updateRepository r) "Failed to update repository") ∧
    (∀ name, raisesPolicy (deleteRepository name) "Failed to delete repository") ∧
    (∀ name desc p now, raisesPolicy (quickExtract name desc p now) "Failed to extract and push") ∧
    (∀ t w, ∃ b, (validateToken t).run w = Except.ok b) := by
  refine ⟨fun _ => handleJson_policy _ _, fun _ => handleJson_policy _ _,
          handleJson_policy _ _, fun _ => handleJson_policy _ _,
          fun _ => handleJson_policy _ _, fun _ => handleJson_policy _ _,
          fun _ => handleJson_policy _ _, fun _ _ _ _ => handleJson_policy _ _,
          fun t w => ?_⟩
  cases h : w (validateToken t).req with
  | netError m =>
    refine ⟨false, ?_⟩
    simp only [Call.run]
    rw [h]
    rfl
  | resp status b =>
    refine ⟨responseOk status, ?_⟩
    simp only [Call.run]
    rw [h]
    rfl

/-- Counterexample to C2 as stated: `validateToken` is a client call other
than `getStatus` (and one of C2's own cited sources), yet on a 400 response
whose body is `{"detail": "Invalid token"}` it does not raise an error with
that message — it resolves normally to `false`. -/
theorem C2_counterexample :
    (validateToken "t1").run world400Detail = Except.ok false ∧
    (validateToken "t1").run world400Detail ≠ Except.error "Invalid token" := by
  constructor
  · rfl
  · intro h
    rw [show (validateToken "t1").run world400Detail = Except.ok false from rfl] at h
    exact Except.noConfusion h

/-- Witness for C2 (amended), instantiating the policy's detail case for
`configure` and the transport case for `deleteRepository` at concrete
backends, and the no-raise clause for `validateToken`. -/
theorem C2_error_policy_amended_witness :
    (configure ⟨"t1", "u1"⟩).run world400Detail = Except.error "Invalid token" ∧
    (deleteRepository "r1").run worldNet = Except.error "NetworkError when attempting to fetch resource" ∧
    (∃ b, (validateToken "t1").run worldNet = Except.ok b) := by
  refine ⟨?_, ?_, ?_⟩
  · have h := (C2_error_policy_amended.1 ⟨"t1", "u1"⟩ world400Detail).2.2.1 400
      [("detail", Json.str "Invalid token")] "Invalid token" rfl (by omega) rfl (by decide)
    exact h
  · exact (C2_error_policy_amended.2.2.2.2.2.2.1 "r1" worldNet).1 _ rfl
  · exact C2_error_policy_amended.2.2.2.2.2.2.2.2 "t1" worldNet

/-- C3: for credentials with non-empty token and username, `configure` issues
exactly one POST to `/configure` under the fixed base path
`http://localhost:8000/github`, with body the serialization of the credentials
record (fields `token` and `username`), and on a 2xx response with a
well-formed JSON body it returns that parsed body unchanged. -/
theorem C3_configure_request_and_success (config : GitHubConfig)
    (_htok : config.token ≠ "") (_huser : config.username ≠ "")
    (w : World) (status : Nat) (data : Json)
    (hw : w (configure config).req = .resp status (.json data))
    (hok : responseOk status = true) :
    (configure config).req.method = "POST" ∧
    (configure config).req.url = baseUrl ++ "/configure" ∧
    baseUrl = "http://localhost:8000/github" ∧
    (configure config).req.body =
      some (Json.obj [("token", .str config.token),
                      ("username", .str config.username)]) ∧
    (configure config).run w = Except.ok data := by
  refine ⟨rfl, rfl, rfl, rfl, ?_⟩
  simp only [Call.run]
  rw [hw]
  simp [configure, handleJson, hok]

/-- Witness for C3 at the credentials `{token: "t1", username: "u1"}` and a
backend answering 200 with `{"success": true}`. -/
theorem C3_configure_request_and_success_witness :
    (configure ⟨"t1", "u1"⟩).run worldOk200 =
      Except.ok (.obj [("success", .bool true)]) := by
  exact (C3_configure_request_and_success ⟨"t1", "u1"⟩ (by decide) (by decide)
    worldOk200 200 _ rfl rfl).2.2.2.2

/-- C4: `quickExtract(name)` with no description (JS default `''`) builds an
ExtractRequest with source_dir `./generated`, the generated timestamped
default description (non-empty), `private` false, and the literal default
include/exclude pattern sets, and delegates it to `extractAndPush`. -/
theorem C4_quickExtract_defaults (repoName now : String) :
    (quickExtractRequest repoName quickExtractOmittedDescription false now).source_dir
      = "./generated" ∧
    (quickExtractRequest repoName quickExtractOmittedDescription false now).repo_name
      = repoName ∧
    (quickExtractRequest repoName quickExtractOmittedDescription false now).description
      = "AI-generated code from Cube AI System - " ++ now ∧
    (quickExtractRequest repoName quickExtractOmittedDescription false now).description
      ≠ "" ∧
    (quickExtractRequest repoName quickExtractOmittedDescription false now).«private»
      = false ∧
    (quickExtractRequest repoName quickExtractOmittedDescription false now).include_patterns
      = some ["*.py", "*.js", "*.ts", "*.tsx", "*.jsx",
              "*.html", "*.css", "*.json", "*.md", "*.txt"] ∧
    (quickExtractRequest repoName quickExtractOmittedDescription false now).exclude_patterns
      = some ["__pycache__", "*.log", "*.tmp", ".DS_Store",
              "node_modules", ".git"] ∧
    quickExtract repoName quickExtractOmittedDescription false now =
      extractAndPush (quickExtractRequest repoName quickExtractOmittedDescription false now) := by
  refine ⟨rfl, rfl, rfl, ?_, rfl, rfl, rfl, rfl⟩
  have h : (quickExtractRequest repoName quickExtractOmittedDescription false now).description
      = defaultDescription now := rfl
  rw [h]
  exact defaultDescription_ne_empty now

/-- C5: `validateToken(token)` issues a POST to `/configure` whose body
carries the token plus the placeholder username `test` (the very request
`configure` would issue for those credentials), and resolves to `true`
exactly when the response status is 2xx — `false` on a non-2xx response or a
network error, with no inspection of response content. -/
theorem C5_validateToken_probe (t : String) (w : World) :
    (validateToken t).req =
      { url := baseUrl ++ "/configure", method := "POST",
        body := some (.obj [("token", .str t), ("username", .str "test")]) } ∧
    (validateToken t).req = (configure ⟨t, "test"⟩).req ∧
    (∀ status b, w (validateToken t).req = .resp status b →
      ((validateToken t).run w = Except.ok true ↔ responseOk status = true)) ∧
    (∀ m, w (validateToken t).req = .netError m →
      (validateToken t).run w = Except.ok false) := by
  refine ⟨rfl, rfl, ?_, ?_⟩
  · intro status b hw
    simp only [Call.run]
    rw [hw]
    show Except.ok (responseOk status) = Except.ok true ↔ responseOk status = true
    constructor
    · intro h
      exact Except.ok.inj h
    · intro h
      rw [h]
  · intro m hw
    simp only [Call.run]
    rw [hw]
    rfl

/-- Witness for C5: a 200 answer yields `true`, the concrete request is the
`configure` probe. -/
theorem C5_validateToken_probe_witness :
    (validateToken "t1").run worldOk200 = Except.ok true := by
  exact ((C5_validateToken_probe "t1" worldOk200).2.2.1 200 _ rfl).2 rfl

/-- C6: `deleteRepository(name)` issues exactly one DELETE to
`/repositories/{name}` under the fixed base path, the name concatenated into
the URL with no escaping, no body, and no precondition (no confirmation): the
request is determined by the name alone. -/
theorem C6_deleteRepository_request (name : String) :
    (deleteRepository name).req =
      { url := baseUrl ++ "/repositories/" ++ name, method := "DELETE",
        body := none } ∧
    baseUrl = "http://localhost:8000/github" :=
  ⟨rfl, rfl⟩

/-- C7: on a 2xx response whose JSON body is an object with no
`repositories` field, `listRepositories` returns the parsed body normally
(no raise), and the component's `loadRepositories` never dereferences the
missing field: it leaves the state unchanged — in particular, starting from
the initial state the repository list stays the empty array. -/
theorem C7_listRepositories_absent_field (w : World) (status : Nat)
    (fs : List (String × Json))
    (hw : w listRepositories.req = .resp status (.json (.obj fs)))
    (hok : responseOk status = true)
    (habs : lookupField fs "repositories" = none) :
    listRepositories.run w = Except.ok (.obj fs) ∧
    (∀ s, loadRepositories w s = s) ∧
    (loadRepositories w initialOpsState).repositories = .arr [] := by
  have hrun : listRepositories.run w = Except.ok (.obj fs) := by
    simp only [Call.run]
    rw [hw]
    simp [listRepositories, handleJson, hok]
  have hs : ∀ s, loadRepositories w s = s := by
    intro s
    simp only [loadRepositories]
    rw [hrun]
    simp [jsMember, habs]
  exact ⟨hrun, hs, by rw [hs initialOpsState]; rfl⟩

/-- Witness for C7 at a backend answering 200 with `{"success": true}` (no
`repositories` field): loading leaves the initial state untouched. -/
theorem C7_listRepositories_absent_field_witness :
    loadRepositories worldOk200 initialOpsState = initialOpsState :=
  (C7_listRepositories_absent_field worldOk200 200 [("success", Json.bool true)]
    rfl rfl rfl).2.1 initialOpsState

/-- C8: `getStatus` is a pure function of the backend's answer to the single
GET `/status` request — the client keeps no state between calls — so two
calls against backends that answer that request identically produce identical
results, in particular the same `configured` value. -/
theorem C8_getStatus_idempotent (w1 w2 : World)
    (h : w1 statusRequest = w2 statusRequest) :
    getStatus.run w1 = getStatus.run w2 ∧
    jsMember (getStatus.run w1) "configured" =
      jsMember (getStatus.run w2) "configured" := by
  have hr : getStatus.run w1 = getStatus.run w2 := by
    simp only [Call.run]
    show getStatus.k (w1 statusRequest) = getStatus.k (w2 statusRequest)
    rw [h]
  exact ⟨hr, by rw [hr]⟩

/-- Witness for C8: two calls against the same concrete backend agree. -/
theorem C8_getStatus_idempotent_witness :
    getStatus.run worldStatus200 = getStatus.run worldStatus200 ∧
    jsMember (getStatus.run worldStatus200) "configured" =
      jsMember (getStatus.run worldStatus200) "configured" :=
  C8_getStatus_idempotent worldStatus200 worldStatus200 rfl

/-- C9: `validateToken` never raises and never reads the response body: every
outcome resolves to a boolean; a network error yields `false`; a 2xx response
yields `true` even when its body is malformed — on that very same response
`configure` (which does parse the body) raises the parse error; and two
responses with the same status but different bodies are indistinguishable to
it. -/
theorem C9_validateToken_ignores_body (t : String) (w : World) :
    (∃ b, (validateToken t).run w = Except.ok b) ∧
    (∀ m, w (validateToken t).req = .netError m →
      (validateToken t).run w = Except.ok false) ∧
    (∀ status m, w (validateToken t).req = .resp status (.malformed m) →
      responseOk status = true →
      (validateToken t).run w = Except.ok true ∧
      (configure ⟨t, "test"⟩).run w = Except.error m) ∧
    (∀ status b b' (w1 w2 : World), w1 (validateToken t).req = .resp status b →
      w2 (validateToken t).req = .resp status b' →
      (validateToken t).run w1 = (validateToken t).run w2) := by
  refine ⟨?_, ?_, ?_, ?_⟩
  · cases h : w (validateToken t).req with
    | netError m =>
      refine ⟨false, ?_⟩
      simp only [Call.run]
      rw [h]
      rfl
    | resp status b =>
      refine ⟨responseOk status, ?_⟩
      simp only [Call.run]
      rw [h]
      rfl
  · intro m hm
    simp only [Call.run]
    rw [hm]
    rfl
  · intro status m hm hok
    constructor
    · simp only [Call.run]
      rw [hm]
      show Except.ok (responseOk status) = Except.ok true
      rw [hok]
    · simp only [Call.run]
      show handleJson "Failed to configure GitHub" (w (validateToken t).req) =
        Except.error m
      rw [hm]
      rfl
  · intro status b b' w1 w2 h1 h2
    simp only [Call.run]
    rw [h1, h2]
    rfl

/-- Witness for C9 at a 2xx backend with a malformed body (where
`validateToken` answers `true` but `configure` raises the parse error) and a
network-failing backend (where it answers `false`). -/
theorem C9_validateToken_ignores_body_witness :
    (validateToken "t1").run worldMalformed200 = Except.ok true ∧
    (configure ⟨"t1", "test"⟩).run worldMalformed200 =
      Except.error "Unexpected end of JSON input" ∧
    (validateToken "t1").run worldNet = Except.ok false := by
  have h := (C9_validateToken_ignores_body "t1" worldMalformed200).2.2.1 200
    "Unexpected end of JSON input" rfl rfl
  exact ⟨h.1, h.2, (C9_validateToken_ignores_body "t1" worldNet).2.1 _ rfl⟩

/-- C10: `quickExtract` with an explicit empty-string description builds the
very same ExtractRequest as with the description omitted (the JS parameter
default is `''`, so an omitted or `undefined` description *is* the empty
string), the empty string being replaced by the generated timestamped
default — so the built request's description is never empty. -/
theorem C10_quickExtract_empty_eq_omitted (repoName now : String) (p : Bool) :
    quickExtractRequest repoName "" p now =
      quickExtractRequest repoName quickExtractOmittedDescription p now ∧
    (quickExtractRequest repoName "" p now).description = defaultDescription now ∧
    (quickExtractRequest repoName "" p now).description ≠ "" ∧
    quickExtract repoName "" p now =
      quickExtract repoName quickExtractOmittedDescription p now := by
  refine ⟨rfl, rfl, ?_, rfl⟩
  show defaultDescription now ≠ ""
  exact defaultDescription_ne_empty now
